import Mathlib

/-!
Verification development for the InfoViz demo repository.

The Python sources are shallowly embedded in Lean:

* `src/text_processor.py` (class `TextProcessor`): tokenization-dependent
  routines take the external `jieba.cut` segmenter as an explicit function
  parameter `cut : String → List String` (jieba is a third-party dictionary
  segmenter, not repository code; it is deterministic, so it is modelled as a
  pure function).  Python floats are modelled as exact rationals (`ℚ`).
* `src/tools.py`, `src/main.py`, `src/deepseek_client.py`: JSON values are
  modelled by the inductive type `JVal`; Python's dynamic failures
  (`TypeError`, `KeyError`, ...) are modelled with `Except PyErr`.
* The fixed regular expressions of the sources are embedded as direct
  scanners implementing `re.findall` (leftmost, non-overlapping, greedy with
  backtracking where the pattern shape requires it).
-/

namespace InfoViz

/-! ## Sentiment lexicons (src/text_processor.py, `analyze_sentiment`) -/

/-- The positive lexicon of `TextProcessor.analyze_sentiment`
(src/text_processor.py line 163). -/
def positive_words : List String :=
  ["好", "优秀", "成功", "增长", "提升", "改善", "满意", "喜欢", "推荐", "积极"]

/-- The negative lexicon of `TextProcessor.analyze_sentiment`
(src/text_processor.py line 164). -/
def negative_words : List String :=
  ["差", "失败", "下降", "问题", "困难", "不满", "批评", "负面", "糟糕", "消极"]

/-- Result dictionary of `analyze_sentiment`.  `sentiment_score` is a Python
float, modelled as an exact rational. -/
structure SentimentResult where
  sentiment_score : ℚ
  sentiment_label : String
  positive_count : ℕ
  negative_count : ℕ
  total_sentiment_words : ℕ
  deriving Repr, DecidableEq

/-- Embedding of `TextProcessor.analyze_sentiment`
(src/text_processor.py lines 152–191).  `cut` stands for the external
`jieba.cut` segmenter. -/
def analyze_sentiment (cut : String → List String) (text : String) :
    SentimentResult :=
  let words := cut text
  let positive_count := words.countP (fun w => positive_words.contains w)
  let negative_count := words.countP (fun w => negative_words.contains w)
  let total := positive_count + negative_count
  if total = 0 then
    { sentiment_score := 0
      sentiment_label := "中性"
      positive_count := positive_count
      negative_count := negative_count
      total_sentiment_words := total }
  else
    let score : ℚ := ((positive_count : ℚ) - (negative_count : ℚ)) / (total : ℚ)
    { sentiment_score := score
      sentiment_label :=
        if score > 1/10 then "正面"
        else if score < -(1/10) then "负面"
        else "中性"
      positive_count := positive_count
      negative_count := negative_count
      total_sentiment_words := total }

/-! ## Generic `re.findall` engine

`re.findall` scans left to right; at each position it attempts a match
(leftmost), emits it and resumes after its end (non-overlapping), otherwise
advances one character.  `findAllFrom` is fuelled by the input length, which
suffices because every step function below consumes at least one character
on success. -/

/-- Fuelled scan loop of `re.findall`: `step` attempts a match anchored at
the head of the list and returns the matched characters and the remainder. -/
def findAllFrom (step : List Char → Option (List Char × List Char)) :
    ℕ → List Char → List (List Char)
  | 0, _ => []
  | _, [] => []
  | fuel + 1, c :: rest =>
    match step (c :: rest) with
    | some (m, r) => m :: findAllFrom step fuel r
    | none => findAllFrom step fuel rest

/-- `re.findall(pattern, s)` for a pattern embedded as a `step` function. -/
def findAll (step : List Char → Option (List Char × List Char))
    (s : String) : List String :=
  (findAllFrom step s.toList.length s.toList).map (fun cs => String.mk cs)

/-! ## The fixed patterns of `TextProcessor.__init__`
(src/text_processor.py lines 23–31): `numbers`, `percentages`, `dates`. -/

/-- Anchored match of `\d+(?:\.\d+)?` (the `numbers` pattern): a maximal
digit run with an optional fractional part.  Backtracking never changes the
outcome for this pattern because no shorter digit run can be followed by a
character that the longer run consumed. -/
def numberStep (l : List Char) : Option (List Char × List Char) :=
  match l with
  | [] => none
  | c :: _ =>
    if c.isDigit then
      let ip := l.takeWhile Char.isDigit
      let r1 := l.dropWhile Char.isDigit
      match r1 with
      | '.' :: d :: r2 =>
        if d.isDigit then
          some (ip ++ '.' :: (d :: r2).takeWhile Char.isDigit,
                (d :: r2).dropWhile Char.isDigit)
        else some (ip, r1)
      | _ => some (ip, r1)
    else none

/-- Anchored match of `\d+(?:\.\d+)?%` (the `percentages` pattern).  The
trailing `%` is not a digit, so greedy digit runs never need backtracking. -/
def percentStep (l : List Char) : Option (List Char × List Char) :=
  match l with
  | [] => none
  | c :: _ =>
    if c.isDigit then
      let ip := l.takeWhile Char.isDigit
      let r1 := l.dropWhile Char.isDigit
      match r1 with
      | '.' :: d :: r2 =>
        if d.isDigit then
          match (d :: r2).dropWhile Char.isDigit with
          | '%' :: r4 =>
            some (ip ++ '.' :: (d :: r2).takeWhile Char.isDigit ++ ['%'], r4)
          | _ => none
        else none
      | '%' :: r4 => some (ip ++ ['%'], r4)
      | _ => none
    else none

/-- The separator class (dash or slash) of the `dates` pattern. -/
def sepChar (c : Char) : Bool := c = '-' || c = '/'

/-- Month-and-separator part `\d{1,2}` plus separator of the `dates` pattern, greedy
with the one backtracking step Python performs (two digits plus separator,
else one digit plus separator). -/
def monthSepPart : List Char → Option (List Char × List Char)
  | d1 :: d2 :: s :: r =>
    if d1.isDigit && d2.isDigit && sepChar s then some ([d1, d2, s], r)
    else if d1.isDigit && sepChar d2 then some ([d1, d2], s :: r)
    else none
  | d1 :: d2 :: r =>
    if d1.isDigit && sepChar d2 then some ([d1, d2], r) else none
  | _ => none

/-- Trailing day part `\d{1,2}` of the `dates` pattern (greedy, nothing
follows it in the pattern). -/
def dayPart : List Char → Option (List Char × List Char)
  | d1 :: d2 :: r =>
    if d1.isDigit && d2.isDigit then some ([d1, d2], r)
    else if d1.isDigit then some ([d1], d2 :: r)
    else none
  | [d1] => if d1.isDigit then some ([d1], []) else none
  | _ => none

/-- Anchored match of the `dates` pattern `\d{4}` sep `\d{1,2}` sep `\d{1,2}`. -/
def dateStep : List Char → Option (List Char × List Char)
  | a :: b :: c :: d :: s1 :: t =>
    if a.isDigit && b.isDigit && c.isDigit && d.isDigit && sepChar s1 then
      match monthSepPart t with
      | some (mp, t2) =>
        match dayPart t2 with
        | some (dp, t3) => some (a :: b :: c :: d :: s1 :: (mp ++ dp), t3)
        | none => none
      | none => none
    else none
  | _ => none

/-! ## Tokenization helpers -/

/-- Anchored match of one `str.split()` word: a maximal run of
non-whitespace characters. -/
def wordRunStep (l : List Char) : Option (List Char × List Char) :=
  match l with
  | [] => none
  | c :: _ =>
    if c.isWhitespace then none
    else some (l.takeWhile (fun x => !x.isWhitespace),
               l.dropWhile (fun x => !x.isWhitespace))

/-- `len(text.split())` of Python: the number of maximal non-whitespace
runs. -/
def pyWordCount (s : String) : ℕ :=
  (findAllFrom wordRunStep s.toList.length s.toList).length

/-- Models the external `jieba.cut` segmenter restricted to pure-ASCII
word/space text, where its behaviour is simple and well known: a maximal
alphanumeric run is one token and every other character is a one-character
token.  Used only to instantiate counterexamples and witnesses on ASCII
inputs. -/
def asciiCut (s : String) : List String :=
  (findAllFrom
    (fun l =>
      match l with
      | [] => none
      | c :: rest =>
        if c.isAlphanum then
          some (l.takeWhile Char.isAlphanum, l.dropWhile Char.isAlphanum)
        else some ([c], rest))
    s.toList.length s.toList).map (fun cs => String.mk cs)

/-- Sentence delimiter class `[。！？.!?]` of the sentence split
(src/text_processor.py line 87). -/
def sentenceDelim (c : Char) : Bool :=
  c = '。' || c = '！' || c = '？' || c = '.' || c = '!' || c = '?'

/-- `re.split` on a character class: split the character list at every
delimiter (delimiters are dropped, empty fragments kept). -/
def splitOnPred (p : Char → Bool) : List Char → List (List Char)
  | [] => [[]]
  | c :: rest =>
    match splitOnPred p rest with
    | [] => if p c then [[], []] else [[c]]
    | s :: ss => if p c then [] :: s :: ss else (c :: s) :: ss

/-- The sentence list of `extract_structured_data`
(src/text_processor.py lines 87–88): split on sentence punctuation, strip
each fragment, drop empties. -/
def pySentences (s : String) : List String :=
  ((splitOnPred sentenceDelim s.toList).map
    (fun cs => (String.mk cs).trim)).filter (fun t => t ≠ "")

/-! ## Stop words, frequency table and `Counter.most_common` -/

/-- The stop-word set of `TextProcessor._get_stopwords`
(src/text_processor.py lines 238–240). -/
def stopwords : List String :=
  ["的", "了", "在", "是", "我", "有", "和", "就", "不", "人", "都", "一",
   "一个", "上", "也", "很", "到", "说", "要", "去", "你", "会", "着",
   "没有", "看", "好", "自己", "这"]

/-- Worker for `firstDedup`: keep each element not yet seen, in order. -/
def firstDedupAux {α : Type} [DecidableEq α] : List α → List α → List α
  | _, [] => []
  | seen, x :: xs =>
    if x ∈ seen then firstDedupAux seen xs
    else x :: firstDedupAux (x :: seen) xs

/-- First-occurrence deduplication: the distinct elements of a list in the
order of their first occurrence (the key order of a Python `dict` /
`Counter` built by insertion). -/
def firstDedup {α : Type} [DecidableEq α] (l : List α) : List α :=
  firstDedupAux [] l

/-- The stop-word-filtered tokenization of `extract_structured_data`
(src/text_processor.py line 82): tokens longer than one character that are
not stop words. -/
def filtered_words (cut : String → List String) (text : String) :
    List String :=
  (cut text).filter (fun w => 1 < w.length && !(stopwords.contains w))

/-- The full frequency table of `Counter(filtered_words)`: each distinct
token paired with its occurrence count, in first-occurrence order. -/
def word_freq_table (ws : List String) : List (String × ℕ) :=
  (firstDedup ws).map (fun w => (w, ws.countP (fun y => y = w)))

/-- Stable insertion of `x` into an already sorted list: `x` is placed
before the first element it compares `le` to, so an element inserted earlier
in a right fold ends up before equal elements that came later. -/
def insertStable {α : Type} (le : α → α → Bool) (x : α) :
    List α → List α
  | [] => [x]
  | y :: ys => if le x y then x :: y :: ys else y :: insertStable le x ys

/-- Stable insertion sort.  Python's `sorted` is a stable sort, and for a
total preorder every stable sort produces the same output, so this computes
exactly the ordering of `Counter.most_common`. -/
def stableSort {α : Type} (le : α → α → Bool) : List α → List α
  | [] => []
  | x :: xs => insertStable le x (stableSort le xs)

/-- `Counter.most_common(k)`: the frequency table sorted by count
descending — Python's `sorted` is stable, so ties keep first-occurrence
order — truncated to `k` entries. -/
def most_common (k : ℕ) (ws : List String) : List (String × ℕ) :=
  (stableSort (fun a b => b.2 ≤ a.2) (word_freq_table ws)).take k

/-! ## `extract_structured_data` (src/text_processor.py lines 49–90)

The `money`, `emails`, `phones` and `urls` pattern fields are not touched
by any claim and are omitted from the embedding. -/

/-- The structured-data dictionary built by `extract_structured_data`. -/
structure ExtractedData where
  text_length : ℕ
  word_count : ℕ
  char_count : ℕ
  numbers : List String
  percentages : List String
  dates : List String
  keywords : List (String × ℕ)
  sentences : List String
  deriving Repr, DecidableEq

/-- Embedding of `TextProcessor.extract_structured_data`. -/
def extract_structured_data (cut : String → List String) (text : String) :
    ExtractedData :=
  { text_length := text.length
    word_count := pyWordCount text
    char_count := text.length
    numbers := findAll numberStep text
    percentages := findAll percentStep text
    dates := findAll dateStep text
    keywords := most_common 20 (filtered_words cut text)
    sentences := pySentences text }

/-! ## `extract_entities` (src/text_processor.py lines 92–150) -/

/-- The character class `[A-Za-z一-鿿]` shared by every entity
pattern. -/
def entityWordChar (c : Char) : Bool :=
  ('A' ≤ c && c ≤ 'Z') || ('a' ≤ c && c ≤ 'z') ||
  (0x4e00 ≤ c.toNat && c.toNat ≤ 0x9fff)

/-- Greedy backtracking search for `[class]{lo,·}suffix` anchored at the
head of `l`: try the class-part length `k` from the given start value down
to `lo`, succeeding at the first `k` after which the literal suffix
matches. -/
def tryClassSuffix (lo : ℕ) (suffix : List Char) (l : List Char) :
    ℕ → Option (List Char × List Char)
  | 0 => none
  | k + 1 =>
    if k + 1 < lo then none
    else if suffix.isPrefixOf (l.drop (k + 1)) then
      some (l.take (k + 1) ++ suffix, l.drop (k + 1 + suffix.length))
    else tryClassSuffix lo suffix l k

/-- Anchored match of `[A-Za-z一-鿿]{lo,hi}suffix`; `hi` is capped
by the class run length at the current position.  The unbounded `+`
quantifier is obtained by passing the input length as `hi`. -/
def classSuffixStep (lo hi : ℕ) (suffix : List Char) (l : List Char) :
    Option (List Char × List Char) :=
  tryClassSuffix lo suffix l (min hi (l.takeWhile entityWordChar).length)

/-- `re.findall` of one entity pattern `[class]{lo,hi}suffix` over a
text. -/
def findEntity (lo hi : ℕ) (suffix : String) (text : String) :
    List String :=
  findAll (classSuffixStep lo hi suffix.toList) text

/-- Embedding of `TextProcessor.extract_entities`: the result dictionary in
insertion order.  The `persons` patterns use quantifier `{2,4}`, the
`organizations` and `locations` patterns use `+`; each bucket accumulates
the matches of its patterns in the fixed pattern order.  No pattern ever
appends to `products` or `technologies`. -/
def extract_entities (text : String) : List (String × List String) :=
  let n := text.toList.length
  [("persons",
      findEntity 2 4 "先生" text ++ findEntity 2 4 "女士" text ++
      findEntity 2 4 "博士" text ++ findEntity 2 4 "教授" text),
   ("organizations",
      findEntity 1 n "公司" text ++ findEntity 1 n "集团" text ++
      findEntity 1 n "大学" text ++ findEntity 1 n "研究院" text ++
      findEntity 1 n "中心" text),
   ("locations",
      findEntity 1 n "市" text ++ findEntity 1 n "省" text ++
      findEntity 1 n "县" text ++ findEntity 1 n "区" text),
   ("products", []),
   ("technologies", [])]

/-! ## `create_data_summary` (src/text_processor.py lines 193–229) -/

/-- `basic_stats` sub-dictionary of the summary. -/
structure BasicStats where
  text_length : ℕ
  word_count : ℕ
  sentence_count : ℕ
  unique_words : ℕ
  deriving Repr, DecidableEq

/-- `data_extraction` sub-dictionary of the summary (pattern-match
counts). -/
structure DataExtraction where
  numbers_found : ℕ
  percentages_found : ℕ
  dates_found : ℕ
  deriving Repr, DecidableEq

/-- Ambient effects available to the Python process (wall clock as read by
`datetime.now`).  `create_data_summary` never reads it; it is threaded
through the embedding to express time-independence. -/
structure Env where
  now : String
  deriving Repr

/-- The `TextSummary` dictionary assembled by `create_data_summary`. -/
structure TextSummary where
  basic_stats : BasicStats
  data_extraction : DataExtraction
  entities : List (String × List String)
  sentiment : SentimentResult
  top_keywords : List (String × ℕ)
  extracted_data : ExtractedData
  deriving Repr, DecidableEq

/-- Embedding of `TextProcessor.create_data_summary`.  `unique_words` is
`len(set(structured_data['keywords']))` — the keyword *pairs* are pairwise
distinct, so the Python `set` size is the number of distinct entries of the
truncated `most_common(20)` list, computed here by `firstDedup`.  The `env`
parameter models the ambient clock and is never read, mirroring the Python
function body, which contains no `datetime`/`random` call. -/
def create_data_summary (env : Env) (cut : String → List String)
    (text : String) : TextSummary :=
  let _ := env
  let structured := extract_structured_data cut text
  let ents := extract_entities text
  let sent := analyze_sentiment cut text
  { basic_stats :=
      { text_length := structured.text_length
        word_count := structured.word_count
        sentence_count := structured.sentences.length
        unique_words := (firstDedup structured.keywords).length }
    data_extraction :=
      { numbers_found := structured.numbers.length
        percentages_found := structured.percentages.length
        dates_found := structured.dates.length }
    entities := ents
    sentiment := sent
    top_keywords := structured.keywords.take 10
    extracted_data := structured }

/-! ## Lemmas about `firstDedup` -/

/-- Members of the deduplicated list are members of the original list. -/
theorem mem_of_mem_firstDedupAux {α : Type} [DecidableEq α] :
    ∀ (l seen : List α) (y : α), y ∈ firstDedupAux seen l → y ∈ l := by
  intro l
  induction l with
  | nil => intro seen y hy; simp [firstDedupAux] at hy
  | cons x xs ih =>
    intro seen y hy
    rw [firstDedupAux] at hy
    by_cases hx : x ∈ seen
    · rw [if_pos hx] at hy
      exact List.mem_cons_of_mem x (ih seen y hy)
    · rw [if_neg hx] at hy
      rcases List.mem_cons.mp hy with h | h
      · exact h ▸ List.mem_cons_self x xs
      · exact List.mem_cons_of_mem x (ih (x :: seen) y h)

/-- Elements produced by the worker were not in the `seen` accumulator. -/
theorem not_mem_seen_of_mem_firstDedupAux {α : Type} [DecidableEq α] :
    ∀ (l seen : List α) (y : α), y ∈ firstDedupAux seen l → y ∉ seen := by
  intro l
  induction l with
  | nil => intro seen y hy; simp [firstDedupAux] at hy
  | cons x xs ih =>
    intro seen y hy
    rw [firstDedupAux] at hy
    by_cases hx : x ∈ seen
    · rw [if_pos hx] at hy
      exact ih seen y hy
    · rw [if_neg hx] at hy
      rcases List.mem_cons.mp hy with h | h
      · exact h ▸ hx
      · intro hseen
        exact ih (x :: seen) y h (List.mem_cons_of_mem x hseen)

/-- The deduplicated list has no duplicates. -/
theorem nodup_firstDedupAux {α : Type} [DecidableEq α] :
    ∀ (l seen : List α), (firstDedupAux seen l).Nodup := by
  intro l
  induction l with
  | nil => intro seen; simp [firstDedupAux]
  | cons x xs ih =>
    intro seen
    rw [firstDedupAux]
    by_cases hx : x ∈ seen
    · rw [if_pos hx]; exact ih seen
    · rw [if_neg hx]
      refine List.nodup_cons.mpr ⟨?_, ih (x :: seen)⟩
      intro hmem
      exact not_mem_seen_of_mem_firstDedupAux xs (x :: seen) x hmem
        (List.mem_cons_self x seen)

/-- The deduplicated list has no duplicates. -/
theorem nodup_firstDedup {α : Type} [DecidableEq α] (l : List α) :
    (firstDedup l).Nodup :=
  nodup_firstDedupAux l []

/-- Deduplication is the identity on duplicate-free lists. -/
theorem firstDedupAux_eq_self {α : Type} [DecidableEq α] :
    ∀ (l seen : List α), l.Nodup → (∀ y ∈ l, y ∉ seen) →
      firstDedupAux seen l = l := by
  intro l
  induction l with
  | nil => intro seen _ _; rfl
  | cons x xs ih =>
    intro seen hnd hdisj
    rw [firstDedupAux, if_neg (hdisj x (List.mem_cons_self x xs))]
    congr 1
    refine ih (x :: seen) (List.nodup_cons.mp hnd).2 ?_
    intro y hy
    intro hmem
    rcases List.mem_cons.mp hmem with h | h
    · exact (List.nodup_cons.mp hnd).1 (h ▸ hy)
    · exact hdisj y (List.mem_cons_of_mem x hy) h

/-- Deduplication is the identity on duplicate-free lists. -/
theorem firstDedup_eq_self {α : Type} [DecidableEq α] (l : List α)
    (h : l.Nodup) : firstDedup l = l :=
  firstDedupAux_eq_self l [] h (fun _ _ => List.not_mem_nil _)

/-! ## Lemmas about `stableSort` -/

/-- Inserting into a list yields a permutation of consing. -/
theorem insertStable_perm {α : Type} (le : α → α → Bool) (x : α) :
    ∀ l : List α, (insertStable le x l).Perm (x :: l) := by
  intro l
  induction l with
  | nil => exact List.Perm.refl _
  | cons y ys ih =>
    rw [insertStable]
    by_cases h : le x y = true
    · rw [if_pos h]
    · rw [if_neg h]
      exact (ih.cons y).trans (List.Perm.swap x y ys)

/-- The sorted list is a permutation of the input. -/
theorem stableSort_perm {α : Type} (le : α → α → Bool) :
    ∀ l : List α, (stableSort le l).Perm l := by
  intro l
  induction l with
  | nil => exact List.Perm.refl _
  | cons x xs ih =>
    rw [stableSort]
    exact (insertStable_perm le x (stableSort le xs)).trans (ih.cons x)

/-- Sorting preserves length. -/
theorem stableSort_length {α : Type} (le : α → α → Bool) (l : List α) :
    (stableSort le l).length = l.length :=
  (stableSort_perm le l).length_eq

/-- C3: for every tokenizer and input text, `analyze_sentiment` satisfies:
`total_sentiment_words = positive_count + negative_count`; the score lies in
`[-1, 1]`; the label follows the fixed thresholds (`> 0.1` positive,
`< -0.1` negative, otherwise neutral); and with no sentiment words the score
is `0` and the label neutral. -/
theorem C3_sentiment_invariants (cut : String → List String) (text : String) :
    (analyze_sentiment cut text).total_sentiment_words
        = (analyze_sentiment cut text).positive_count
          + (analyze_sentiment cut text).negative_count
    ∧ -1 ≤ (analyze_sentiment cut text).sentiment_score
    ∧ (analyze_sentiment cut text).sentiment_score ≤ 1
    ∧ (analyze_sentiment cut text).sentiment_label
        = (if (analyze_sentiment cut text).sentiment_score > 1/10 then "正面"
           else if (analyze_sentiment cut text).sentiment_score < -(1/10) then "负面"
           else "中性")
    ∧ ((analyze_sentiment cut text).total_sentiment_words = 0 →
        (analyze_sentiment cut text).sentiment_score = 0
        ∧ (analyze_sentiment cut text).sentiment_label = "中性") := by
  simp only [analyze_sentiment]
  set p := (cut text).countP (fun w => positive_words.contains w) with hp
  set n := (cut text).countP (fun w => negative_words.contains w) with hn
  by_cases h : p + n = 0
  · rw [if_pos h]
    exact ⟨rfl, by norm_num, by norm_num, by norm_num, fun _ => ⟨rfl, rfl⟩⟩
  · rw [if_neg h]
    have htot : (0 : ℚ) < ((p + n : ℕ) : ℚ) := by
      have : 0 < p + n := Nat.pos_of_ne_zero h
      exact_mod_cast this
    have hscore_le : ((p : ℚ) - (n : ℚ)) / ((p + n : ℕ) : ℚ) ≤ 1 := by
      rw [div_le_one htot]
      push_cast
      have : (0 : ℚ) ≤ (n : ℚ) := by positivity
      linarith
    have hscore_ge : (-1 : ℚ) ≤ ((p : ℚ) - (n : ℚ)) / ((p + n : ℕ) : ℚ) := by
      rw [le_div_iff₀ htot]
      push_cast
      have : (0 : ℚ) ≤ (p : ℚ) := by positivity
      linarith
    exact ⟨rfl, hscore_ge, hscore_le, rfl, fun h0 => absurd h0 h⟩

/-- C3 witness: concrete instantiation with an empty tokenization discharging
the zero-sentiment-words hypothesis. -/
theorem C3_sentiment_invariants_witness :
    (analyze_sentiment (fun _ => []) "").total_sentiment_words = 0
    ∧ (analyze_sentiment (fun _ => []) "").sentiment_score = 0
    ∧ (analyze_sentiment (fun _ => []) "").sentiment_label = "中性" := by
  have h := C3_sentiment_invariants (fun _ => []) ""
  have h0 : (analyze_sentiment (fun _ => []) "").total_sentiment_words = 0 := by
    decide
  exact ⟨h0, h.2.2.2.2 h0⟩

/-- C4: with exactly 3 positive-lexicon occurrences and 1 negative-lexicon
occurrence in the tokenization, `analyze_sentiment` returns counts 3/1/4,
score `(3-1)/4 = 1/2` and the positive label; in general the score is
`(positive_count - negative_count) / total_sentiment_words` whenever the
total is positive. -/
theorem C4_sentiment_score_formula (cut : String → List String) (text : String)
    (hp : (cut text).countP (fun w => positive_words.contains w) = 3)
    (hn : (cut text).countP (fun w => negative_words.contains w) = 1) :
    analyze_sentiment cut text
      = { sentiment_score := 1/2
          sentiment_label := "正面"
          positive_count := 3
          negative_count := 1
          total_sentiment_words := 4 }
    ∧ ∀ (cut2 : String → List String) (text2 : String),
        0 < (analyze_sentiment cut2 text2).total_sentiment_words →
        (analyze_sentiment cut2 text2).sentiment_score
          = (((analyze_sentiment cut2 text2).positive_count : ℚ)
              - ((analyze_sentiment cut2 text2).negative_count : ℚ))
            / (((analyze_sentiment cut2 text2).total_sentiment_words : ℕ) : ℚ) := by
  constructor
  · simp only [analyze_sentiment, hp, hn]
    norm_num
  · intro cut2 text2
    simp only [analyze_sentiment]
    set p := (cut2 text2).countP (fun w => positive_words.contains w) with hp2
    set n := (cut2 text2).countP (fun w => negative_words.contains w) with hn2
    by_cases h : p + n = 0
    · rw [if_pos h]
      intro habs
      exact absurd h (Nat.pos_iff_ne_zero.mp habs)
    · rw [if_neg h]
      intro _
      rfl

/-- C4 witness: a concrete tokenization with three positive and one negative
lexicon occurrence. -/
theorem C4_sentiment_score_formula_witness :
    analyze_sentiment (fun _ => ["增长", "增长", "增长", "下降"]) ""
      = { sentiment_score := 1/2
          sentiment_label := "正面"
          positive_count := 3
          negative_count := 1
          total_sentiment_words := 4 } :=
  (C4_sentiment_score_formula (fun _ => ["增长", "增长", "增长", "下降"]) ""
    (by decide) (by decide)).1

/-- C1 counterexample: a 21-distinct-token text.  `unique_words` is computed
from the truncated `most_common(20)` slice and returns 20, while the full
frequency table has 21 distinct tokens; the claimed equality fails. -/
def c1Text : String :=
  "w00 w01 w02 w03 w04 w05 w06 w07 w08 w09 w10 w11 w12 w13 w14 w15 w16 w17 w18 w19 w20"

/-- C1 is false on the code: on a text whose stop-word-filtered tokenization
has 21 distinct tokens, the summary's `unique_words` is 20 (the size of the
set of the truncated top-20 slice), not the 21 distinct tokens of the full
frequency table. -/
theorem C1_counterexample :
    (create_data_summary ⟨""⟩ asciiCut c1Text).basic_stats.unique_words = 20
    ∧ (firstDedup (filtered_words asciiCut c1Text)).length = 21
    ∧ (20 : ℕ) ≠ 21 := by
  refine ⟨?_, ?_, by decide⟩
  · show (firstDedup (most_common 20 (filtered_words asciiCut c1Text))).length = 20
    decide
  · decide

/-- C1 amended: `unique_words` equals the number of distinct tokens of the
*top-20 slice*, i.e. the minimum of 20 and the number of distinct tokens of
the full frequency table built over the stop-word-filtered tokenization. -/
theorem C1_unique_words_amended (env : Env) (cut : String → List String)
    (text : String) :
    (create_data_summary env cut text).basic_stats.unique_words
      = min 20 (firstDedup (filtered_words cut text)).length := by
  show (firstDedup (most_common 20 (filtered_words cut text))).length = _
  set fw := filtered_words cut text with hfw
  have hinj : Function.Injective
      (fun w : String => (w, fw.countP (fun y => y = w))) := by
    intro a b hab
    exact congrArg Prod.fst hab
  have hnd : (word_freq_table fw).Nodup := (nodup_firstDedup fw).map hinj
  have hsorted :
      (stableSort (fun a b : String × ℕ => b.2 ≤ a.2)
        (word_freq_table fw)).Nodup :=
    (stableSort_perm _ (word_freq_table fw)).symm.nodup hnd
  have htake : (most_common 20 fw).Nodup := by
    rw [most_common]
    exact List.Nodup.sublist (List.take_sublist _ _) hsorted
  rw [firstDedup_eq_self _ htake, most_common, List.length_take,
    stableSort_length, word_freq_table, List.length_map]

/-- C5: on the empty string the summary builder returns (totally, no
exception is possible in the embedding) text length 0, a neutral zero-score
sentiment, and an empty top-keyword list.  The hypothesis records that the
external segmenter returns no tokens on the empty string. -/
theorem C5_empty_input (env : Env) (cut : String → List String)
    (h : cut "" = []) :
    (create_data_summary env cut "").basic_stats.text_length = 0
    ∧ (create_data_summary env cut "").sentiment.sentiment_score = 0
    ∧ (create_data_summary env cut "").sentiment.sentiment_label = "中性"
    ∧ (create_data_summary env cut "").top_keywords = [] := by
  refine ⟨rfl, ?_, ?_, ?_⟩
  · show (analyze_sentiment cut "").sentiment_score = 0
    simp [analyze_sentiment, h]
  · show (analyze_sentiment cut "").sentiment_label = "中性"
    simp [analyze_sentiment, h]
  · show (most_common 20 (filtered_words cut "")).take 10 = []
    have hfw : filtered_words cut "" = [] := by
      simp [filtered_words, h]
    rw [hfw]
    rfl

/-- C5 witness: the empty-tokenization instantiation. -/
theorem C5_empty_input_witness :
    (create_data_summary ⟨""⟩ (fun _ => []) "").basic_stats.text_length = 0
    ∧ (create_data_summary ⟨""⟩ (fun _ => []) "").sentiment.sentiment_score = 0
    ∧ (create_data_summary ⟨""⟩ (fun _ => []) "").sentiment.sentiment_label = "中性"
    ∧ (create_data_summary ⟨""⟩ (fun _ => []) "").top_keywords = [] :=
  C5_empty_input ⟨""⟩ (fun _ => []) rfl

/-- C6: the summary builder is deterministic.  Its body performs no clock or
randomness read (the `Env` ambient-effect parameter is ignored), and the
external segmenter is a fixed function, so two invocations on identical text
— under arbitrary, possibly different, ambient clocks — produce identical
`TextSummary` content. -/
theorem C6_deterministic (env₁ env₂ : Env) (cut : String → List String)
    (text : String) :
    create_data_summary env₁ cut text = create_data_summary env₂ cut text :=
  rfl

/-- The specific input text of C7. -/
def c7Text : String := "2023年，AI企业数量达到5000多家，同比增长25%。"

/-- C7: on the given text the pattern extractor counts 3 numbers
(`2023`, `5000`, `25`), hence at least 2; exactly 1 percentage (`25%`); and
0 dates, because the fixed date regex requires two separator-delimited
fields after the year and so does not match a bare 4-digit year (last
conjunct). -/
theorem C7_pattern_extractor (env : Env) (cut : String → List String) :
    (create_data_summary env cut c7Text).data_extraction.numbers_found = 3
    ∧ 2 ≤ (create_data_summary env cut c7Text).data_extraction.numbers_found
    ∧ (create_data_summary env cut c7Text).data_extraction.percentages_found = 1
    ∧ 1 ≤ (create_data_summary env cut c7Text).data_extraction.percentages_found
    ∧ (create_data_summary env cut c7Text).data_extraction.dates_found = 0
    ∧ findAll dateStep "2023" = [] := by
  have h1 : findAll numberStep c7Text = ["2023", "5000", "25"] := by decide
  have h2 : findAll percentStep c7Text = ["25%"] := by decide
  have h3 : findAll dateStep c7Text = [] := by decide
  have h4 : findAll dateStep "2023" = [] := by decide
  refine ⟨?_, ?_, ?_, ?_, ?_, h4⟩
  · show (findAll numberStep c7Text).length = 3
    rw [h1]
    rfl
  · show 2 ≤ (findAll numberStep c7Text).length
    rw [h1]
    decide
  · show (findAll percentStep c7Text).length = 1
    rw [h2]
    rfl
  · show 1 ≤ (findAll percentStep c7Text).length
    rw [h2]
    decide
  · show (findAll dateStep c7Text).length = 0
    rw [h3]
    rfl

/-! ## C10: `extract_entities` -/

/-- A successful `tryClassSuffix` match is a prefix of the scanned list and
leaves a suffix of it. -/
theorem tryClassSuffix_spec (lo : ℕ) (suffix l : List Char) :
    ∀ (k : ℕ) (m r : List Char),
      tryClassSuffix lo suffix l k = some (m, r) → m <+: l ∧ r <:+ l := by
  intro k
  induction k with
  | zero => intro m r h; simp [tryClassSuffix] at h
  | succ k ih =>
    intro m r h
    rw [tryClassSuffix] at h
    by_cases h1 : k + 1 < lo
    · rw [if_pos h1] at h; exact absurd h (by simp)
    · rw [if_neg h1] at h
      by_cases h2 : suffix.isPrefixOf (l.drop (k + 1)) = true
      · rw [if_pos h2] at h
        injection h with hpair
        cases hpair
        constructor
        · rcases List.isPrefixOf_iff_prefix.mp h2 with ⟨u, hu⟩
          exact ⟨u, by rw [List.append_assoc, hu, List.take_append_drop]⟩
        · exact List.drop_suffix _ _
      · rw [if_neg h2] at h
        exact ih m r h

/-- A successful `classSuffixStep` match is a prefix of the scanned list and
leaves a suffix of it. -/
theorem classSuffixStep_spec (lo hi : ℕ) (suffix l m r : List Char)
    (h : classSuffixStep lo hi suffix l = some (m, r)) :
    m <+: l ∧ r <:+ l :=
  tryClassSuffix_spec lo suffix l _ m r h

/-- Every match emitted by the scan loop is a contiguous part of the
scanned list, provided each anchored match is a prefix of the current
position and leaves a suffix. -/
theorem mem_findAllFrom_infix
    (step : List Char → Option (List Char × List Char))
    (hstep : ∀ l m r, step l = some (m, r) → m <+: l ∧ r <:+ l) :
    ∀ (fuel : ℕ) (l m : List Char),
      m ∈ findAllFrom step fuel l → m <:+: l := by
  intro fuel
  induction fuel with
  | zero => intro l m hm; simp [findAllFrom] at hm
  | succ n ih =>
    intro l m hm
    cases l with
    | nil => simp [findAllFrom] at hm
    | cons c rest =>
      rw [findAllFrom] at hm
      cases hstep' : step (c :: rest) with
      | none =>
        rw [hstep'] at hm
        exact (ih rest m hm).trans (List.suffix_cons c rest).isInfix
      | some pr =>
        obtain ⟨m', r⟩ := pr
        rw [hstep'] at hm
        rcases List.mem_cons.mp hm with h | h
        · exact h ▸ (hstep _ _ _ hstep').1.isInfix
        · exact (ih r m h).trans (hstep _ _ _ hstep').2.isInfix

/-- Every string returned by `findEntity` occurs contiguously in the
text. -/
theorem mem_findEntity_infix (lo hi : ℕ) (suffix : String) (text : String)
    (w : String) (h : w ∈ findEntity lo hi suffix text) :
    w.toList <:+: text.toList := by
  rcases List.mem_map.mp h with ⟨cs, hcs, hw⟩
  subst hw
  show cs <:+: text.toList
  exact mem_findAllFrom_infix _
    (fun l m r hm => classSuffixStep_spec lo hi suffix.toList l m r hm)
    _ _ cs hcs

/-- C10 amended: `extract_entities` always returns exactly the five keys
`persons`, `organizations`, `locations`, `products`, `technologies`;
`products` and `technologies` are always empty (no pattern populates them);
and every entry of the three populated buckets occurs contiguously in the
input text.  Bucket order is the fixed pattern order (each pattern's matches
in text order, duplicates preserved), not global text order — see the
counterexample. -/
theorem C10_extract_entities_amended (text : String) :
    (extract_entities text).map Prod.fst
      = ["persons", "organizations", "locations", "products", "technologies"]
    ∧ (extract_entities text).lookup "products" = some []
    ∧ (extract_entities text).lookup "technologies" = some []
    ∧ (∀ bucket ∈ (extract_entities text).map Prod.snd,
        ∀ w ∈ bucket, w.toList <:+: text.toList) := by
  refine ⟨rfl, rfl, rfl, ?_⟩
  intro bucket hbucket w hw
  simp only [extract_entities, List.map_cons, List.map_nil,
    List.mem_cons, List.not_mem_nil] at hbucket
  rcases hbucket with h | h | h | h | h | h
  · subst h
    rcases List.mem_append.mp hw with h1 | h1
    rcases List.mem_append.mp h1 with h2 | h2
    rcases List.mem_append.mp h2 with h3 | h3
    · exact mem_findEntity_infix _ _ _ _ _ h3
    · exact mem_findEntity_infix _ _ _ _ _ h3
    · exact mem_findEntity_infix _ _ _ _ _ h2
    · exact mem_findEntity_infix _ _ _ _ _ h1
  · subst h
    rcases List.mem_append.mp hw with h1 | h1
    rcases List.mem_append.mp h1 with h2 | h2
    rcases List.mem_append.mp h2 with h3 | h3
    rcases List.mem_append.mp h3 with h4 | h4
    · exact mem_findEntity_infix _ _ _ _ _ h4
    · exact mem_findEntity_infix _ _ _ _ _ h4
    · exact mem_findEntity_infix _ _ _ _ _ h3
    · exact mem_findEntity_infix _ _ _ _ _ h2
    · exact mem_findEntity_infix _ _ _ _ _ h1
  · subst h
    rcases List.mem_append.mp hw with h1 | h1
    rcases List.mem_append.mp h1 with h2 | h2
    rcases List.mem_append.mp h2 with h3 | h3
    · exact mem_findEntity_infix _ _ _ _ _ h3
    · exact mem_findEntity_infix _ _ _ _ _ h3
    · exact mem_findEntity_infix _ _ _ _ _ h2
    · exact mem_findEntity_infix _ _ _ _ _ h1
  · subst h
    exact absurd hw (List.not_mem_nil w)
  · subst h
    exact absurd hw (List.not_mem_nil w)
  · exact absurd h (by simp)

/-- First index in `s` at which `sub` occurs as a contiguous substring. -/
def firstOccurIdx (sub s : String) : Option ℕ :=
  (List.range (s.toList.length + 1)).find?
    (fun i => sub.toList.isPrefixOf (s.toList.drop i))

/-- The C10 counterexample text: two person matches whose pattern-grouped
output order reverses their text order. -/
def c10Text : String := "张丽女士，王伟先生"

/-- C10 is false as stated: the `persons` bucket lists the `先生` match
before the `女士` match (pattern order), although the `女士` match occurs
first in the text (index 0 versus index 5), so the bucket is not in text
order. -/
theorem C10_counterexample :
    (extract_entities c10Text).lookup "persons"
      = some ["王伟先生", "张丽女士"]
    ∧ firstOccurIdx "王伟先生" c10Text = some 5
    ∧ firstOccurIdx "张丽女士" c10Text = some 0
    ∧ (0 : ℕ) < 5 := by
  refine ⟨by decide, by decide, by decide, by decide⟩

/-! ## JSON values and Python dynamic semantics

Shared model for `src/tools.py`, `src/main.py` and `src/deepseek_client.py`.
JSON values (the possible results of `json.loads`) are modelled by `JVal`;
Python's dynamic failures are modelled by `Except PyErr`. -/

/-- JSON-like Python values. -/
inductive JVal : Type where
  | jnull : JVal
  | jbool : Bool → JVal
  | jnum : ℚ → JVal
  | jstr : String → JVal
  | jarr : List JVal → JVal
  | jobj : List (String × JVal) → JVal

/-- Python runtime exceptions relevant to the embedded code. -/
inductive PyErr : Type where
  | typeErr : PyErr
  | keyErr : String → PyErr
  | idxErr : PyErr
  | attrErr : PyErr
  | valueErr : PyErr
  | jsonDecodeErr : PyErr
  deriving Repr, DecidableEq

/-- `str(e)` of an exception.  The exact Python message text is abstracted;
only the fact that it is some string matters to any claim. -/
def pyErrStr : PyErr → String
  | .typeErr => "TypeError"
  | .keyErr k => "KeyError: " ++ k
  | .idxErr => "IndexError"
  | .attrErr => "AttributeError"
  | .valueErr => "ValueError"
  | .jsonDecodeErr => "JSONDecodeError"

/-- Key lookup in an object's field list.  Objects produced by `json.loads`
have pairwise-distinct keys, so first-match lookup agrees with Python
`dict` lookup. -/
def lookupField : List (String × JVal) → String → Option JVal
  | [], _ => none
  | (k, v) :: rest, key => if k = key then some v else lookupField rest key

/-- Does `needle` occur contiguously in `hay`? (Python `str` containment.) -/
def containsSeq (needle hay : List Char) : Bool :=
  (List.range (hay.length + 1)).any (fun i => needle.isPrefixOf (hay.drop i))

/-- Python `key in data`: key membership for a dict, element equality for a
list (a string equals only an equal string), substring test for a string,
`TypeError` otherwise. -/
def pyContains (key : String) : JVal → Except PyErr Bool
  | .jobj fs => .ok (lookupField fs key).isSome
  | .jarr xs =>
    .ok (xs.any (fun v => match v with | .jstr s => s = key | _ => false))
  | .jstr s => .ok (containsSeq key.toList s.toList)
  | _ => .error .typeErr

/-- Python `data[key]` with a string key: dict lookup (`KeyError` when
missing); `TypeError` on lists, strings and scalars. -/
def pySubscriptStr (v : JVal) (key : String) : Except PyErr JVal :=
  match v with
  | .jobj fs =>
    match lookupField fs key with
    | some x => .ok x
    | none => .error (.keyErr key)
  | _ => .error .typeErr

/-- Python `data[i]` with a non-negative int index: list and string
indexing (`IndexError` out of bounds), `KeyError` on a string-keyed dict,
`TypeError` otherwise. -/
def pyIndexNat (v : JVal) (i : ℕ) : Except PyErr JVal :=
  match v with
  | .jarr xs =>
    match xs[i]? with
    | some x => .ok x
    | none => .error .idxErr
  | .jstr s =>
    match s.toList[i]? with
    | some c => .ok (.jstr (String.mk [c]))
    | none => .error .idxErr
  | .jobj _ => .error (.keyErr "0")
  | _ => .error .typeErr

/-- Python truthiness. -/
def pyTruthy : JVal → Bool
  | .jnull => false
  | .jbool b => b
  | .jnum q => q ≠ 0
  | .jstr s => s ≠ ""
  | .jarr xs => !xs.isEmpty
  | .jobj fs => !fs.isEmpty

/-- Python `data.get(key, dflt)`: defaulted dict lookup; `AttributeError`
when the receiver is not a dict. -/
def pyGet (v : JVal) (key : String) (dflt : JVal) : Except PyErr JVal :=
  match v with
  | .jobj fs => .ok ((lookupField fs key).getD dflt)
  | _ => .error .attrErr

/-- Python iteration `for x in v`: list elements, string characters, dict
keys; `TypeError` otherwise. -/
def pyIter : JVal → Except PyErr (List JVal)
  | .jarr xs => .ok xs
  | .jstr s => .ok (s.toList.map (fun c => .jstr (String.mk [c])))
  | .jobj fs => .ok (fs.map (fun f => .jstr f.1))
  | _ => .error .typeErr

/-- Python `metrics.items()`: the field list of a dict; `AttributeError`
otherwise. -/
def pyItems : JVal → Except PyErr (List (String × JVal))
  | .jobj fs => .ok fs
  | _ => .error .attrErr

/-- Python `str(v)` as needed by `len(str(entity))`.  Exact for strings,
booleans, `None`; the `repr` of numbers and nested containers is abstracted
(no theorem below depends on it). -/
def pyStr : JVal → String
  | .jstr s => s
  | .jnull => "None"
  | .jbool true => "True"
  | .jbool false => "False"
  | .jnum q => toString q
  | .jarr _ => "list"
  | .jobj _ => "dict"

/-- Python `isinstance(v, (int, float))` (`bool` is a subclass of `int`). -/
def isNumLike : JVal → Bool
  | .jnum _ => true
  | .jbool _ => true
  | _ => false

/-- The numeric value of an int/float/bool `JVal`. -/
def numVal : JVal → ℚ
  | .jnum q => q
  | .jbool b => if b then 1 else 0
  | _ => 0

/-! ### Reduction lemmas for the `Except` monad -/

/-- Bind on a success reduces to the continuation. -/
theorem exc_ok_bind {α β : Type} (a : α) (f : α → Except PyErr β) :
    (Bind.bind (Except.ok a) f) = f a := rfl

/-- Bind on an error short-circuits. -/
theorem exc_error_bind {α β : Type} (e : PyErr) (f : α → Except PyErr β) :
    (Bind.bind (Except.error e) f) = Except.error e := rfl

/-- `pure` is `Except.ok`. -/
theorem exc_pure {α : Type} (a : α) : (pure a : Except PyErr α) = Except.ok a :=
  rfl

/-- `throw` is `Except.error`. -/
theorem exc_throw {α : Type} (e : PyErr) :
    (throw e : Except PyErr α) = Except.error e := rfl

/-! ## C9: `DeepSeekClient._parse_response` and the wrapping in
`extract_data_from_text` (src/deepseek_client.py lines 99–104 and
173–192).

`json.loads` is an external call; its behaviour on a content string is
abstracted as a parameter `loads : String → Option JVal` (`none` standing
for a raised `json.JSONDecodeError`). -/

/-- The body of `_parse_response` before its `try/except`:
`content = response['choices'][0]['message']['content']`, then parse the
content as JSON when it starts with a brace or bracket, else wrap it. -/
def parse_response_body (loads : String → Option JVal) (response : JVal) :
    Except PyErr JVal := do
  let choices ← pySubscriptStr response "choices"
  let c0 ← pyIndexNat choices 0
  let msg ← pySubscriptStr c0 "message"
  let content ← pySubscriptStr msg "content"
  match content with
  | .jstr s =>
    if s.trim.startsWith "\x7b" || s.trim.startsWith "[" then
      match loads s with
      | some v => pure v
      | none => throw .jsonDecodeErr
    else
      pure (.jobj [("content", .jstr s)])
  | _ => throw .attrErr

/-- `_parse_response` including its `except (KeyError, json.JSONDecodeError)`
handler, which returns an error-plus-raw-response wrapper; any other
exception (e.g. `IndexError` on an empty `choices`, `AttributeError` when
`content` is not a string, `TypeError` on unexpected shapes) escapes. -/
def parse_response (loads : String → Option JVal) (response : JVal) :
    Except PyErr JVal :=
  match parse_response_body loads response with
  | .ok v => .ok v
  | .error (.keyErr k) =>
    .ok (.jobj [("error", .jstr ("响应解析失败: " ++ pyErrStr (.keyErr k))),
                ("raw_response", response)])
  | .error .jsonDecodeErr =>
    .ok (.jobj [("error", .jstr ("响应解析失败: " ++ pyErrStr .jsonDecodeErr)),
                ("raw_response", response)])
  | .error e => .error e

/-- The call site in `extract_data_from_text`: its `except Exception`
handler turns any escaped exception into `{"error": str(e)}`, so the
combination is total. -/
def extract_data_parse (loads : String → Option JVal) (response : JVal) :
    JVal :=
  match parse_response loads response with
  | .ok v => v
  | .error e => .jobj [("error", .jstr (pyErrStr e))]

/-- A successful body run returns either a `loads` result or a raw-content
wrapper. -/
theorem parse_response_body_ok_shape (loads : String → Option JVal)
    (response : JVal) (v : JVal)
    (h : parse_response_body loads response = .ok v) :
    (∃ s : String, loads s = some v)
    ∨ (∃ s : String, v = .jobj [("content", .jstr s)]) := by
  unfold parse_response_body at h
  cases h1 : pySubscriptStr response "choices" with
  | error e => rw [h1, exc_error_bind] at h; exact Except.noConfusion h
  | ok choices =>
    rw [h1, exc_ok_bind] at h
    cases h2 : pyIndexNat choices 0 with
    | error e => rw [h2, exc_error_bind] at h; exact Except.noConfusion h
    | ok c0 =>
      rw [h2, exc_ok_bind] at h
      cases h3 : pySubscriptStr c0 "message" with
      | error e => rw [h3, exc_error_bind] at h; exact Except.noConfusion h
      | ok msg =>
        rw [h3, exc_ok_bind] at h
        cases h4 : pySubscriptStr msg "content" with
        | error e => rw [h4, exc_error_bind] at h; exact Except.noConfusion h
        | ok content =>
          rw [h4, exc_ok_bind] at h
          cases content with
          | jstr s =>
            dsimp only at h
            by_cases h5 : (s.trim.startsWith "\x7b" || s.trim.startsWith "[") = true
            · rw [if_pos h5] at h
              cases h6 : loads s with
              | some w =>
                rw [h6] at h
                have hv : w = v :=
                  Except.ok.inj (show (Except.ok w : Except PyErr JVal) = Except.ok v from h)
                exact Or.inl ⟨s, by rw [h6, hv]⟩
              | none =>
                rw [h6] at h
                exact Except.noConfusion
                  (show (Except.error PyErr.jsonDecodeErr : Except PyErr JVal) = Except.ok v from h)
            · rw [if_neg h5] at h
              rw [exc_pure] at h
              exact Or.inr ⟨s, (Except.ok.inj h).symm⟩
          | jnull => dsimp only at h; rw [exc_throw] at h; exact Except.noConfusion h
          | jbool b => dsimp only at h; rw [exc_throw] at h; exact Except.noConfusion h
          | jnum q => dsimp only at h; rw [exc_throw] at h; exact Except.noConfusion h
          | jarr xs => dsimp only at h; rw [exc_throw] at h; exact Except.noConfusion h
          | jobj fs => dsimp only at h; rw [exc_throw] at h; exact Except.noConfusion h

/-- C9: for every `json.loads` behaviour and every provider response value,
the parser combination returns exactly one of the three shapes — a parsed
JSON value (an output of `loads`), a raw-content wrapper, or an error
wrapper whose `error` field is a string — and, being a total function, never
lets an exception escape to the caller. -/
theorem C9_parse_response_shapes (loads : String → Option JVal)
    (response : JVal) :
    (∃ s : String, loads s = some (extract_data_parse loads response))
    ∨ (∃ s : String,
        extract_data_parse loads response = .jobj [("content", .jstr s)])
    ∨ (∃ (msg : String) (rest : List (String × JVal)),
        extract_data_parse loads response
          = .jobj (("error", .jstr msg) :: rest)) := by
  unfold extract_data_parse parse_response
  cases hb : parse_response_body loads response with
  | ok v =>
    rcases parse_response_body_ok_shape loads response v hb with ⟨s, hs⟩ | ⟨s, hs⟩
    · exact Or.inl ⟨s, hs⟩
    · exact Or.inr (Or.inl ⟨s, hs⟩)
  | error e =>
    refine Or.inr (Or.inr ?_)
    cases e with
    | keyErr k =>
      exact ⟨"响应解析失败: " ++ pyErrStr (.keyErr k),
        [("raw_response", response)], rfl⟩
    | jsonDecodeErr =>
      exact ⟨"响应解析失败: " ++ pyErrStr .jsonDecodeErr,
        [("raw_response", response)], rfl⟩
    | typeErr => exact ⟨pyErrStr .typeErr, [], rfl⟩
    | idxErr => exact ⟨pyErrStr .idxErr, [], rfl⟩
    | attrErr => exact ⟨pyErrStr .attrErr, [], rfl⟩
    | valueErr => exact ⟨pyErrStr .valueErr, [], rfl⟩

/-! ## C2: `VisualizationTool._run` (src/tools.py lines 298–510) -/

/-- The required keys checked by `_validate_visualization_data`
(src/tools.py line 332). -/
def requiredVizKeys : List String :=
  ["entities", "metrics", "categories", "core_arguments"]

/-- `all(key in data for key in required_keys)` with Python's short-circuit
and per-element `in` (which may raise). -/
def allKeysContained : List String → JVal → Except PyErr Bool
  | [], _ => .ok true
  | k :: ks, v => do
    let b ← pyContains k v
    if b then allKeysContained ks v else pure false

/-- `_create_default_data` (src/tools.py lines 478–485): the demo payload
substituted when the tool input fails to parse as JSON. -/
def default_data : JVal :=
  .jobj [("entities", .jarr [.jstr "示例实体1", .jstr "示例实体2"]),
         ("metrics", .jobj [("示例指标", .jstr "示例值")]),
         ("categories", .jarr [.jstr "示例分类"]),
         ("core_arguments", .jarr [.jstr "示例论点"])]

/-- Python slicing `v[:n]` (lists and strings; `TypeError` otherwise). -/
def pySliceTake (v : JVal) (n : ℕ) : Except PyErr JVal :=
  match v with
  | .jarr xs => .ok (.jarr (xs.take n))
  | .jstr s => .ok (.jstr (String.mk (s.toList.take n)))
  | _ => .error .typeErr

/-- `_generate_cards` (src/tools.py lines 354–383). -/
def generate_cards (data : JVal) : Except PyErr (List JVal) := do
  let e0 ← pyGet data "entities" .jnull
  let a0 ← pyGet data "core_arguments" .jnull
  let summaryCards ←
    if pyTruthy e0 || pyTruthy a0 then do
      let e ← pyGet data "entities" (.jarr [])
      let e5 ← pySliceTake e 5
      let a ← pyGet data "core_arguments" (.jarr [])
      let a3 ← pySliceTake a 3
      pure [JVal.jobj
        [("type", .jstr "card"), ("card_id", .jstr "summary"),
         ("title", .jstr "内容摘要"),
         ("content", .jobj [("entities", e5), ("arguments", a3)])]]
    else pure []
  let m0 ← pyGet data "metrics" .jnull
  let metricsCards ←
    if pyTruthy m0 then do
      let m ← pyGet data "metrics" (.jobj [])
      pure [JVal.jobj
        [("type", .jstr "card"), ("card_id", .jstr "metrics"),
         ("title", .jstr "关键指标"),
         ("content", .jobj [("metrics", m)])]]
    else pure []
  pure (summaryCards ++ metricsCards)

/-- The entity length histogram of `_create_entity_chart`
(src/tools.py lines 408–417): counts for the short (≤3), medium (4–8) and
long (9+) groups. -/
def entity_length_groups (entities : List JVal) : ℕ × ℕ × ℕ :=
  entities.foldl
    (fun acc e =>
      let len := (pyStr e).length
      if len ≤ 3 then (acc.1 + 1, acc.2.1, acc.2.2)
      else if len ≤ 8 then (acc.1, acc.2.1 + 1, acc.2.2)
      else (acc.1, acc.2.1, acc.2.2 + 1))
    (0, 0, 0)

/-- `_create_entity_chart` (src/tools.py lines 403–433): a pie chart of the
entity length distribution; `None` on an empty/falsy input. -/
def create_entity_chart (entities : JVal) : Except PyErr (Option JVal) := do
  if !pyTruthy entities then pure none
  else do
    let items ← pyIter entities
    let g := entity_length_groups items
    let pieData : List JVal :=
      (if 0 < g.1 then
        [JVal.jobj [("value", .jnum (g.1 : ℚ)), ("name", .jstr "短(1-3字符)")]]
       else []) ++
      (if 0 < g.2.1 then
        [JVal.jobj [("value", .jnum (g.2.1 : ℚ)), ("name", .jstr "中(4-8字符)")]]
       else []) ++
      (if 0 < g.2.2 then
        [JVal.jobj [("value", .jnum (g.2.2 : ℚ)), ("name", .jstr "长(9+字符)")]]
       else [])
    pure (some (.jobj
      [("type", .jstr "echarts"), ("chart_id", .jstr "entity_distribution"),
       ("title", .jstr "实体长度分布"),
       ("config", .jobj
         [("title", .jobj [("text", .jstr "实体长度分布"),
                           ("left", .jstr "center")]),
          ("tooltip", .jobj [("trigger", .jstr "item")]),
          ("series", .jarr [.jobj
            [("name", .jstr "实体数量"), ("type", .jstr "pie"),
             ("radius", .jstr "50%"), ("data", .jarr pieData)]])])]))

/-- Anchored match of one run of the `[\d.]+` pattern used by
`_create_metrics_chart` (src/tools.py line 450). -/
def digitDotRunStep (l : List Char) : Option (List Char × List Char) :=
  match l with
  | [] => none
  | c :: _ =>
    if c.isDigit || c = '.' then
      some (l.takeWhile (fun x => x.isDigit || x = '.'),
            l.dropWhile (fun x => x.isDigit || x = '.'))
    else none

/-- The value of the digits of a number literal. -/
def digitsVal (cs : List Char) : ℕ :=
  cs.foldl (fun acc c => 10 * acc + (c.toNat - '0'.toNat)) 0

/-- Python `float(s)` restricted to strings of digits and dots (the only
strings it is applied to): succeeds iff there is at least one digit and at
most one dot; `None` models the raised `ValueError`. -/
def pyFloatOfDigitDot (s : String) : Option ℚ :=
  let cs := s.toList
  if cs.any Char.isDigit && cs.count '.' ≤ 1 then
    let ip := cs.takeWhile (fun c => c ≠ '.')
    let fp := (cs.dropWhile (fun c => c ≠ '.')).drop 1
    some ((digitsVal ip : ℚ) + (digitsVal fp : ℚ) / ((10 : ℚ) ^ fp.length))
  else none

/-- The numeric value `_create_metrics_chart` derives from one metric entry,
if any: numbers (and bools, `isinstance(·, int)`) directly, strings via
the first `[\d.]+` run when `float` accepts it; other types are skipped. -/
def metric_value (v : JVal) : Option ℚ :=
  match v with
  | .jnum q => some q
  | .jbool b => some (if b then 1 else 0)
  | .jstr s =>
    match findAll digitDotRunStep s with
    | [] => none
    | n :: _ => pyFloatOfDigitDot n
  | _ => none

/-- `_create_metrics_chart` (src/tools.py lines 435–476): a bar chart of the
numeric metric values; `None` when the input is falsy or yields no value. -/
def create_metrics_chart (metrics : JVal) : Except PyErr (Option JVal) := do
  if !pyTruthy metrics then pure none
  else do
    let items ← pyItems metrics
    let pairs := items.filterMap
      (fun kv => (metric_value kv.2).map (fun q => (kv.1, q)))
    if pairs.isEmpty then pure none
    else
      pure (some (.jobj
        [("type", .jstr "echarts"), ("chart_id", .jstr "metrics_analysis"),
         ("title", .jstr "指标分析"),
         ("config", .jobj
           [("title", .jobj [("text", .jstr "指标分析"),
                             ("left", .jstr "center")]),
            ("xAxis", .jobj [("type", .jstr "category"),
                             ("data", .jarr (pairs.map
                               (fun p => .jstr p.1)))]),
            ("yAxis", .jobj [("type", .jstr "value")]),
            ("series", .jarr [.jobj
              [("name", .jstr "指标值"), ("type", .jstr "bar"),
               ("data", .jarr (pairs.map (fun p => .jnum p.2)))]]),
            ("tooltip", .jobj [("trigger", .jstr "axis")])])]))

/-- `_generate_charts` (src/tools.py lines 385–401). -/
def generate_charts (data : JVal) : Except PyErr (List JVal) := do
  let e0 ← pyGet data "entities" .jnull
  let entityCharts ←
    if pyTruthy e0 then do
      let ents ← pySubscriptStr data "entities"
      let c ← create_entity_chart ents
      pure (match c with | some ch => [ch] | none => [])
    else pure []
  let m0 ← pyGet data "metrics" .jnull
  let metricCharts ←
    if pyTruthy m0 then do
      let ms ← pySubscriptStr data "metrics"
      let c ← create_metrics_chart ms
      pure (match c with | some ch => [ch] | none => [])
    else pure []
  pure (entityCharts ++ metricCharts)

/-- `_generate_visualization_config` (src/tools.py lines 335–352); `ts` is
the `datetime.now().isoformat()` timestamp. -/
def generate_visualization_config (ts : String) (data : JVal) :
    Except PyErr JVal := do
  let cards ← generate_cards data
  let charts ← generate_charts data
  let vizs := cards ++ charts
  pure (.jobj
    [("visualizations", .jarr vizs),
     ("total_items", .jnum (vizs.length : ℚ)),
     ("generation_timestamp", .jstr ts),
     ("description", .jstr "基于结构化数据生成的可视化配置")])

/-- `_create_fallback_visualization` (src/tools.py lines 487–505): exactly
one error card. -/
def fallback_visualization (ts : String) : JVal :=
  .jobj
    [("visualizations", .jarr
       [.jobj [("type", .jstr "card"), ("card_id", .jstr "error_card"),
               ("title", .jstr "数据错误"),
               ("content", .jobj
                 [("message", .jstr "无法生成可视化配置，请检查输入数据")])]]),
     ("total_items", .jnum 1),
     ("generation_timestamp", .jstr ts),
     ("description", .jstr "回退可视化配置"),
     ("error", .jstr "可视化生成失败")]

/-- The tool input after `json.loads`: either the raised
`json.JSONDecodeError` on an unparsable/empty payload string, or the parsed
value. -/
inductive VizInput : Type where
  | unparsable : VizInput
  | parsed : JVal → VizInput

/-- Embedding of `VisualizationTool._run`: an unparsable payload is replaced
by `_create_default_data()`; failed validation returns the fallback
configuration; the outer `except Exception` turns any raised error into the
fallback configuration as well.  The function is total: no exception
reaches the caller. -/
def visualization_run (ts : String) (input : VizInput) : JVal :=
  let data := match input with
    | .unparsable => default_data
    | .parsed v => v
  let attempt : Except PyErr (Option JVal) := do
    let ok ← allKeysContained requiredVizKeys data
    if ok then do
      let cfg ← generate_visualization_config ts data
      pure (some cfg)
    else pure none
  match attempt with
  | .ok (some cfg) => cfg
  | .ok none => fallback_visualization ts
  | .error _ => fallback_visualization ts

/-- The number of items under the `visualizations` key of a configuration
value, when it has the expected shape. -/
def vizCount (v : JVal) : Option ℕ :=
  match v with
  | .jobj fs =>
    match lookupField fs "visualizations" with
    | some (.jarr xs) => some xs.length
    | _ => none
  | _ => none

/-- The first item under the `visualizations` key, when present. -/
def firstViz (v : JVal) : Option JVal :=
  match v with
  | .jobj fs =>
    match lookupField fs "visualizations" with
    | some (.jarr (x :: _)) => some x
    | _ => none
  | _ => none

/-- `_validate_visualization_data` never raises on a dict payload and
computes the conjunction of required-key presence. -/
theorem allKeysContained_jobj (ks : List String) (fs : List (String × JVal)) :
    allKeysContained ks (.jobj fs)
      = .ok (ks.all (fun k => (lookupField fs k).isSome)) := by
  induction ks with
  | nil => rfl
  | cons k ks ih =>
    rw [allKeysContained]
    rw [show pyContains k (.jobj fs) = .ok (lookupField fs k).isSome from rfl]
    rw [exc_ok_bind]
    cases hk : (lookupField fs k).isSome with
    | true => simp [hk, ih]
    | false => simp [hk, exc_pure]

/-- C2 is false as stated: an unparsable (or empty, which is unparsable)
payload is replaced by the default demo data, which passes validation and
yields a three-item configuration — two cards and one pie chart, with no
`error` marker — not a single error Card. -/
theorem C2_counterexample :
    vizCount (visualization_run "" .unparsable) = some 3
    ∧ (match visualization_run "" .unparsable with
        | .jobj fs => (lookupField fs "error").isNone
        | _ => false) = true
    ∧ (3 : ℕ) ≠ 1 :=
  ⟨rfl, rfl, by decide⟩

/-- C2 amended: a payload that parses to a dict missing one of the required
keys (`entities`, `metrics`, `categories`, `core_arguments`) yields exactly
one Card item carrying the explicit error message; unparsable or empty
payloads instead yield the three-item default-data configuration
(see the counterexample); `visualization_run` is total, so the planner
never raises to the caller. -/
theorem C2_missing_keys_fallback (ts : String) (fs : List (String × JVal))
    (h : requiredVizKeys.all (fun k => (lookupField fs k).isSome) = false) :
    visualization_run ts (.parsed (.jobj fs)) = fallback_visualization ts
    ∧ vizCount (visualization_run ts (.parsed (.jobj fs))) = some 1
    ∧ firstViz (visualization_run ts (.parsed (.jobj fs)))
        = some (.jobj
            [("type", .jstr "card"), ("card_id", .jstr "error_card"),
             ("title", .jstr "数据错误"),
             ("content", .jobj
               [("message", .jstr "无法生成可视化配置，请检查输入数据")])]) := by
  have hrun :
      visualization_run ts (.parsed (.jobj fs)) = fallback_visualization ts := by
    unfold visualization_run
    dsimp only
    rw [allKeysContained_jobj, h, exc_ok_bind]
    rfl
  refine ⟨hrun, ?_, ?_⟩
  · rw [hrun]; rfl
  · rw [hrun]; rfl

/-- C2 witness: the empty dict payload misses every required key and gets
the single error card. -/
theorem C2_missing_keys_fallback_witness :
    visualization_run "" (.parsed (.jobj [])) = fallback_visualization ""
    ∧ vizCount (visualization_run "" (.parsed (.jobj []))) = some 1
    ∧ firstViz (visualization_run "" (.parsed (.jobj [])))
        = some (.jobj
            [("type", .jstr "card"), ("card_id", .jstr "error_card"),
             ("title", .jstr "数据错误"),
             ("content", .jobj
               [("message", .jstr "无法生成可视化配置，请检查输入数据")])]) :=
  C2_missing_keys_fallback "" [] (by decide)

/-! ## C8: `validate_data_authenticity` (src/main.py lines 54–109)

`json.loads(result_data)` is external; the three possible outcomes of the
guard `if result_data.strip():` plus parsing are modelled by `AuthInput`.
The warning strings built with f-strings are modelled as a structured
`AuthWarning` type (the interpolated value is carried as payload). -/

/-- One warning of the authenticity report. -/
inductive AuthWarning : Type where
  | radarVirtual : JVal → AuthWarning
  | pieVirtual : ℚ → AuthWarning
  | metricVirtual : ℚ → AuthWarning
  | parseFailed : AuthWarning

/-- The fixed denylist of "suspicious canonical values"
(src/main.py lines 78, 89, 98). -/
def virtual_values : List ℚ := [85, 70, 45, 90, 80, 60, 50, 40, 30, 20, 10]

/-- Python `v == q` for a number literal `q` (numbers compare by value,
`True == 1`, `False == 0`, every other type compares unequal). -/
def numEqVal (v : JVal) (q : ℚ) : Bool :=
  match v with
  | .jnum x => x = q
  | .jbool b => (if b then (1 : ℚ) else 0) = q
  | _ => false

/-- Python `v in [85, 70, ...]`. -/
def inVirtualList (v : JVal) : Bool :=
  virtual_values.any (fun q => numEqVal v q)

/-- Python `v == "s"` for a string literal. -/
def jStrEq (v : JVal) (s : String) : Bool :=
  match v with
  | .jstr t => t = s
  | _ => false

/-- Sequentially run a per-element check over a list, accumulating warnings;
the first raised exception aborts the whole loop (as in Python). -/
def scanListM (f : JVal → Except PyErr (List AuthWarning)) :
    List JVal → Except PyErr (List AuthWarning)
  | [] => .ok []
  | x :: xs => do
    let w ← f x
    let ws ← scanListM f xs
    pure (w ++ ws)

/-- The radar inner loop body (src/main.py lines 74–79): one `data_item`. -/
def checkRadarItem (item : JVal) : Except PyErr (List AuthWarning) := do
  let b ← pyContains "value" item
  if b then do
    let values ← pySubscriptStr item "value"
    let vs ← pyIter values
    if vs.any inVirtualList then pure [.radarVirtual values] else pure []
  else pure []

/-- The radar series loop body (src/main.py lines 72–79): one `series`. -/
def checkRadarSeries (series : JVal) : Except PyErr (List AuthWarning) := do
  let b ← pyContains "data" series
  if b then do
    let ds ← pySubscriptStr series "data"
    let items ← pyIter ds
    scanListM checkRadarItem items
  else pure []

/-- The radar check of a chart config (src/main.py lines 69–79). -/
def checkRadarConfig (config : JVal) : Except PyErr (List AuthWarning) := do
  let b ← pyContains "radar" config
  if b then do
    let sd ← pyGet config "series" (.jarr [])
    let series ← pyIter sd
    scanListM checkRadarSeries series
  else pure []

/-- The pie item loop body (src/main.py lines 87–90): one `item`. -/
def checkPieItem (item : JVal) : Except PyErr (List AuthWarning) := do
  let b ← pyContains "value" item
  if b then do
    let v ← pySubscriptStr item "value"
    if isNumLike v && inVirtualList v then pure [.pieVirtual (numVal v)]
    else pure []
  else pure []

/-- The pie series loop body (src/main.py lines 83–90): one `series`. -/
def checkPieSeries (series : JVal) : Except PyErr (List AuthWarning) := do
  let t ← pyGet series "type" .jnull
  if jStrEq t "pie" then do
    let b ← pyContains "data" series
    if b then do
      let pd ← pySubscriptStr series "data"
      let items ← pyIter pd
      scanListM checkPieItem items
    else pure []
  else pure []

/-- The per-visualization check (src/main.py lines 65–90). -/
def checkViz (viz : JVal) : Except PyErr (List AuthWarning) := do
  let t ← pyGet viz "type" .jnull
  if jStrEq t "echarts" then do
    let b ← pyContains "config" viz
    if b then do
      let config ← pySubscriptStr viz "config"
      let w1 ← checkRadarConfig config
      let b2 ← pyContains "series" config
      let w2 ←
        if b2 then do
          let ss ← pySubscriptStr config "series"
          let items ← pyIter ss
          scanListM checkPieSeries items
        else pure []
      pure (w1 ++ w2)
    else pure []
  else pure []

/-- The key-metric loop body (src/main.py lines 93–99): one `metric`. -/
def checkMetric (metric : JVal) : Except PyErr (List AuthWarning) := do
  let b ← pyContains "value" metric
  if b then do
    let v ← pySubscriptStr metric "value"
    if isNumLike v && inVirtualList v then pure [.metricVirtual (numVal v)]
    else pure []
  else pure []

/-- The authenticity report (src/main.py lines 104–109). -/
structure AuthReport where
  has_virtual_data : Bool
  warnings : List AuthWarning
  original_text_length : ℕ
  result_data_length : ℕ

/-- `result_data` after the strip-guard and `json.loads`: blank string,
parse failure (the caught `json.JSONDecodeError`), or parsed value. -/
inductive AuthInput : Type where
  | emptyData : AuthInput
  | parseError : AuthInput
  | parsed : JVal → AuthInput

/-- The warning collection of `validate_data_authenticity`.  Only
`json.JSONDecodeError` is caught (becoming a warning); any other exception
raised while traversing an unexpectedly shaped value escapes. -/
def auth_warnings (input : AuthInput) : Except PyErr (List AuthWarning) :=
  match input with
  | .emptyData => .ok []
  | .parseError => .ok [.parseFailed]
  | .parsed data => do
    let b ← pyContains "visualizations" data
    let w1 ←
      if b then do
        let vs ← pySubscriptStr data "visualizations"
        let items ← pyIter vs
        scanListM checkViz items
      else pure []
    let b2 ← pyContains "key_metrics" data
    let w2 ←
      if b2 then do
        let ms ← pySubscriptStr data "key_metrics"
        let items ← pyIter ms
        scanListM checkMetric items
      else pure []
    pure (w1 ++ w2)

/-- Embedding of `validate_data_authenticity`; `origLen` and `resLen` are
`len(original_text)` and `len(result_data)`. -/
def validate_data_authenticity (origLen resLen : ℕ) (input : AuthInput) :
    Except PyErr AuthReport := do
  let warnings ← auth_warnings input
  pure { has_virtual_data := !warnings.isEmpty
         warnings := warnings
         original_text_length := origLen
         result_data_length := resLen }

/-- Decompose a successful bind into a successful first step and a
successful continuation. -/
theorem exc_bind_ok {α β : Type} (m : Except PyErr α)
    (f : α → Except PyErr β) (b : β) (h : Bind.bind m f = .ok b) :
    ∃ a, m = .ok a ∧ f a = .ok b := by
  cases m with
  | error e => rw [exc_error_bind] at h; exact Except.noConfusion h
  | ok a =>
    rw [exc_ok_bind] at h
    exact ⟨a, rfl, h⟩

/-- A successful loop run ran the check successfully on every element, and
each element's warnings end up in the accumulated list. -/
theorem scanListM_mem (f : JVal → Except PyErr (List AuthWarning)) :
    ∀ (l : List JVal) (ws : List AuthWarning), scanListM f l = .ok ws →
      ∀ x ∈ l, ∃ wx, f x = .ok wx ∧ ∀ w ∈ wx, w ∈ ws := by
  intro l
  induction l with
  | nil => intro ws _ x hx; exact absurd hx (List.not_mem_nil x)
  | cons y ys ih =>
    intro ws h x hx
    rw [scanListM] at h
    obtain ⟨wy, hfy, h2⟩ := exc_bind_ok _ _ _ h
    obtain ⟨wys, hsy, h3⟩ := exc_bind_ok _ _ _ h2
    rw [exc_pure] at h3
    have hws : wy ++ wys = ws := Except.ok.inj h3
    rcases List.mem_cons.mp hx with hxy | hxys
    · exact ⟨wy, hxy ▸ hfy, fun w hw => hws ▸ List.mem_append_left _ hw⟩
    · rcases ih wys hsy x hxys with ⟨wx, hfx, hsub⟩
      exact ⟨wx, hfx, fun w hw => hws ▸ List.mem_append_right _ (hsub w hw)⟩

/-- Whenever the validator returns a report, `has_virtual_data` holds
exactly when the warning list is non-empty. -/
theorem auth_report_iff (origLen resLen : ℕ) (input : AuthInput)
    (r : AuthReport)
    (h : validate_data_authenticity origLen resLen input = .ok r) :
    r.has_virtual_data = true ↔ r.warnings ≠ [] := by
  unfold validate_data_authenticity at h
  obtain ⟨ws, _, h2⟩ := exc_bind_ok _ _ _ h
  rw [exc_pure] at h2
  have hr := (Except.ok.inj h2).symm
  subst hr
  cases ws with
  | nil => simp
  | cons w ws => simp

/-- A pie item with a denylisted numeric `value` produces exactly the pie
warning. -/
theorem checkPieItem_hit (ifs : List (String × JVal)) (q : ℚ)
    (hval : lookupField ifs "value" = some (.jnum q))
    (hq : q ∈ virtual_values) :
    checkPieItem (.jobj ifs) = .ok [.pieVirtual q] := by
  unfold checkPieItem
  rw [show pyContains "value" (.jobj ifs) = .ok true from by
    simp [pyContains, hval]]
  rw [exc_ok_bind]
  simp only [if_true]
  rw [show pySubscriptStr (.jobj ifs) "value" = .ok (.jnum q) from by
    simp [pySubscriptStr, hval]]
  rw [exc_ok_bind]
  have hin : inVirtualList (.jnum q) = true := by
    rw [inVirtualList, List.any_eq_true]
    exact ⟨q, hq, by simp [numEqVal]⟩
  rw [show (isNumLike (.jnum q) && inVirtualList (.jnum q)) = true from by
    simp [isNumLike, hin]]
  rfl

/-- A radar data item whose `value` list contains a denylisted number
produces the radar warning. -/
theorem checkRadarItem_hit (ifs : List (String × JVal)) (vals : List JVal)
    (q : ℚ) (hval : lookupField ifs "value" = some (.jarr vals))
    (hmem : JVal.jnum q ∈ vals) (hq : q ∈ virtual_values) :
    checkRadarItem (.jobj ifs) = .ok [.radarVirtual (.jarr vals)] := by
  unfold checkRadarItem
  rw [show pyContains "value" (.jobj ifs) = .ok true from by
    simp [pyContains, hval]]
  rw [exc_ok_bind]
  simp only [if_true]
  rw [show pySubscriptStr (.jobj ifs) "value" = .ok (.jarr vals) from by
    simp [pySubscriptStr, hval]]
  rw [exc_ok_bind]
  rw [show pyIter (.jarr vals) = .ok vals from rfl]
  rw [exc_ok_bind]
  have hany : vals.any inVirtualList = true := by
    rw [List.any_eq_true]
    refine ⟨.jnum q, hmem, ?_⟩
    rw [inVirtualList, List.any_eq_true]
    exact ⟨q, hq, by simp [numEqVal]⟩
  rw [hany]
  rfl

/-- Whenever the validator returns a report on a payload containing an
echarts visualization whose config has a pie series with a denylisted
numeric `value`, the pie warning is in the report. -/
theorem auth_pie_detect (origLen resLen : ℕ)
    (dfs : List (String × JVal)) (vizs : List JVal)
    (hvizs : lookupField dfs "visualizations" = some (.jarr vizs))
    (vfs : List (String × JVal)) (hvmem : JVal.jobj vfs ∈ vizs)
    (htype : lookupField vfs "type" = some (.jstr "echarts"))
    (cfs : List (String × JVal))
    (hconfig : lookupField vfs "config" = some (.jobj cfs))
    (ss : List JVal)
    (hseries : lookupField cfs "series" = some (.jarr ss))
    (sfs : List (String × JVal)) (hsmem : JVal.jobj sfs ∈ ss)
    (hstype : lookupField sfs "type" = some (.jstr "pie"))
    (items : List JVal)
    (hdata : lookupField sfs "data" = some (.jarr items))
    (ifs : List (String × JVal)) (himem : JVal.jobj ifs ∈ items)
    (q : ℚ) (hval : lookupField ifs "value" = some (.jnum q))
    (hq : q ∈ virtual_values) (r : AuthReport)
    (hok : validate_data_authenticity origLen resLen (.parsed (.jobj dfs))
             = .ok r) :
    AuthWarning.pieVirtual q ∈ r.warnings := by
  unfold validate_data_authenticity at hok
  obtain ⟨ws, hws, hrec⟩ := exc_bind_ok _ _ _ hok
  rw [exc_pure] at hrec
  have hr := (Except.ok.inj hrec).symm
  subst hr
  simp only [auth_warnings, pyContains, pySubscriptStr, pyIter, hvizs,
    Option.isSome_some, eq_self_iff_true, if_true, exc_ok_bind] at hws
  obtain ⟨w1, hw1, hrest⟩ := exc_bind_ok _ _ _ hws
  have hws_sub : ∀ w ∈ w1, w ∈ ws := by
    cases hc : (lookupField dfs "key_metrics").isSome with
    | true =>
      simp only [hc, eq_self_iff_true, if_true] at hrest
      obtain ⟨ms, _, h2⟩ := exc_bind_ok _ _ _ hrest
      obtain ⟨its, _, h3⟩ := exc_bind_ok _ _ _ h2
      obtain ⟨y, _, h4⟩ := exc_bind_ok _ _ _ h3
      rw [exc_pure] at h4
      have hws_eq := Except.ok.inj h4
      intro w hw
      exact hws_eq ▸ List.mem_append_left y hw
    | false =>
      rw [if_neg (by rw [hc]; exact Bool.false_ne_true)] at hrest
      obtain ⟨y, _, h4⟩ := exc_bind_ok _ _ _ hrest
      rw [exc_pure] at h4
      have hws_eq := Except.ok.inj h4
      intro w hw
      exact hws_eq ▸ List.mem_append_left y hw
  obtain ⟨wv, hcv, hsubv⟩ := scanListM_mem checkViz vizs w1 hw1 _ hvmem
  simp only [checkViz, pyGet, htype, Option.getD_some,
    show jStrEq (.jstr "echarts") "echarts" = true from rfl,
    pyContains, hconfig, hseries, Option.isSome_some, eq_self_iff_true,
    if_true, pySubscriptStr, pyIter, exc_ok_bind] at hcv
  obtain ⟨wr, _, h6⟩ := exc_bind_ok _ _ _ hcv
  obtain ⟨wp, hwp, h7⟩ := exc_bind_ok _ _ _ h6
  rw [exc_pure] at h7
  have hwv : wr ++ wp = wv := Except.ok.inj h7
  obtain ⟨wsr, hcs, hsubs⟩ := scanListM_mem checkPieSeries ss wp hwp _ hsmem
  simp only [checkPieSeries, pyGet, hstype, Option.getD_some,
    show jStrEq (.jstr "pie") "pie" = true from rfl,
    pyContains, hdata, Option.isSome_some, eq_self_iff_true, if_true,
    pySubscriptStr, pyIter, exc_ok_bind] at hcs
  obtain ⟨wit, hci, hsubi⟩ := scanListM_mem checkPieItem items wsr hcs _ himem
  rw [checkPieItem_hit ifs q hval hq] at hci
  have hwit : [AuthWarning.pieVirtual q] = wit := Except.ok.inj hci
  have h_in_wit : AuthWarning.pieVirtual q ∈ wit :=
    hwit ▸ List.mem_singleton_self _
  have h_in_wsr := hsubi _ h_in_wit
  have h_in_wp := hsubs _ h_in_wsr
  have h_in_wv : AuthWarning.pieVirtual q ∈ wv :=
    hwv ▸ List.mem_append_right wr h_in_wp
  have h_in_w1 := hsubv _ h_in_wv
  exact hws_sub _ h_in_w1

/-- Whenever the validator returns a report on a payload containing an
echarts visualization whose config has a `radar` key and a series data item
whose `value` list contains a denylisted number, the radar warning is in
the report. -/
theorem auth_radar_detect (origLen resLen : ℕ)
    (dfs : List (String × JVal)) (vizs : List JVal)
    (hvizs : lookupField dfs "visualizations" = some (.jarr vizs))
    (vfs : List (String × JVal)) (hvmem : JVal.jobj vfs ∈ vizs)
    (htype : lookupField vfs "type" = some (.jstr "echarts"))
    (cfs : List (String × JVal))
    (hconfig : lookupField vfs "config" = some (.jobj cfs))
    (hradar : (lookupField cfs "radar").isSome = true)
    (ss : List JVal)
    (hseries : lookupField cfs "series" = some (.jarr ss))
    (sfs : List (String × JVal)) (hsmem : JVal.jobj sfs ∈ ss)
    (items : List JVal)
    (hdata : lookupField sfs "data" = some (.jarr items))
    (ifs : List (String × JVal)) (himem : JVal.jobj ifs ∈ items)
    (vals : List JVal)
    (hval : lookupField ifs "value" = some (.jarr vals))
    (q : ℚ) (hqmem : JVal.jnum q ∈ vals)
    (hq : q ∈ virtual_values) (r : AuthReport)
    (hok : validate_data_authenticity origLen resLen (.parsed (.jobj dfs))
             = .ok r) :
    AuthWarning.radarVirtual (.jarr vals) ∈ r.warnings := by
  unfold validate_data_authenticity at hok
  obtain ⟨ws, hws, hrec⟩ := exc_bind_ok _ _ _ hok
  rw [exc_pure] at hrec
  have hr := (Except.ok.inj hrec).symm
  subst hr
  simp only [auth_warnings, pyContains, pySubscriptStr, pyIter, hvizs,
    Option.isSome_some, eq_self_iff_true, if_true, exc_ok_bind] at hws
  obtain ⟨w1, hw1, hrest⟩ := exc_bind_ok _ _ _ hws
  have hws_sub : ∀ w ∈ w1, w ∈ ws := by
    cases hc : (lookupField dfs "key_metrics").isSome with
    | true =>
      simp only [hc, eq_self_iff_true, if_true] at hrest
      obtain ⟨ms, _, h2⟩ := exc_bind_ok _ _ _ hrest
      obtain ⟨its, _, h3⟩ := exc_bind_ok _ _ _ h2
      obtain ⟨y, _, h4⟩ := exc_bind_ok _ _ _ h3
      rw [exc_pure] at h4
      have hws_eq := Except.ok.inj h4
      intro w hw
      exact hws_eq ▸ List.mem_append_left y hw
    | false =>
      rw [if_neg (by rw [hc]; exact Bool.false_ne_true)] at hrest
      obtain ⟨y, _, h4⟩ := exc_bind_ok _ _ _ hrest
      rw [exc_pure] at h4
      have hws_eq := Except.ok.inj h4
      intro w hw
      exact hws_eq ▸ List.mem_append_left y hw
  obtain ⟨wv, hcv, hsubv⟩ := scanListM_mem checkViz vizs w1 hw1 _ hvmem
  simp only [checkViz, pyGet, htype, Option.getD_some,
    show jStrEq (.jstr "echarts") "echarts" = true from rfl,
    pyContains, hconfig, hseries, Option.isSome_some, eq_self_iff_true,
    if_true, pySubscriptStr, pyIter, exc_ok_bind] at hcv
  obtain ⟨wr, hwr, h6⟩ := exc_bind_ok _ _ _ hcv
  obtain ⟨wp, _, h7⟩ := exc_bind_ok _ _ _ h6
  rw [exc_pure] at h7
  have hwv : wr ++ wp = wv := Except.ok.inj h7
  simp only [checkRadarConfig, pyContains, hradar, eq_self_iff_true, if_true,
    pyGet, hseries, Option.getD_some, pyIter, exc_ok_bind] at hwr
  obtain ⟨wsr, hcs, hsubs⟩ := scanListM_mem checkRadarSeries ss wr hwr _ hsmem
  simp only [checkRadarSeries, pyContains, hdata, Option.isSome_some,
    eq_self_iff_true, if_true, pySubscriptStr, pyIter, exc_ok_bind] at hcs
  obtain ⟨wit, hci, hsubi⟩ := scanListM_mem checkRadarItem items wsr hcs _ himem
  rw [checkRadarItem_hit ifs vals q hval hqmem hq] at hci
  have hwit : [AuthWarning.radarVirtual (.jarr vals)] = wit :=
    Except.ok.inj hci
  have h_in_wit : AuthWarning.radarVirtual (.jarr vals) ∈ wit :=
    hwit ▸ List.mem_singleton_self _
  have h_in_wsr := hsubi _ h_in_wit
  have h_in_wr := hsubs _ h_in_wsr
  have h_in_wv : AuthWarning.radarVirtual (.jarr vals) ∈ wv :=
    hwv ▸ List.mem_append_left wp h_in_wr
  have h_in_w1 := hsubv _ h_in_wv
  exact hws_sub _ h_in_w1

/-- C8 is false as stated: on the input string pair
`result_data = "5"`, `original_text = ""` (non-blank, parses to the JSON
number `5`), the check `'visualizations' in data` raises `TypeError`, which
no handler catches — the function does not return for every pair of input
strings. -/
theorem C8_counterexample :
    validate_data_authenticity 0 1 (.parsed (.jnum 5))
      = .error PyErr.typeErr := rfl

/-- C8 amended: whenever `validate_data_authenticity` *returns* a report
(it can raise `TypeError`/`AttributeError` on unexpectedly shaped JSON, see
the counterexample), `has_virtual_data` is true exactly when the warnings
list is non-empty; and on a well-shaped parsed payload every pie-series
numeric `value` from the fixed denylist, and every radar series data item
whose `value` list holds a denylisted number, produces its warning in the
report.  The report is advisory by construction: the function only builds
and returns it. -/
theorem C8_validator_amended :
    (∀ (origLen resLen : ℕ) (input : AuthInput) (r : AuthReport),
        validate_data_authenticity origLen resLen input = .ok r →
        (r.has_virtual_data = true ↔ r.warnings ≠ []))
    ∧ (∀ (origLen resLen : ℕ)
        (dfs : List (String × JVal)) (vizs : List JVal),
        lookupField dfs "visualizations" = some (.jarr vizs) →
        ∀ vfs : List (String × JVal), JVal.jobj vfs ∈ vizs →
        lookupField vfs "type" = some (.jstr "echarts") →
        ∀ cfs : List (String × JVal),
        lookupField vfs "config" = some (.jobj cfs) →
        ∀ ss : List JVal,
        lookupField cfs "series" = some (.jarr ss) →
        ∀ sfs : List (String × JVal), JVal.jobj sfs ∈ ss →
        lookupField sfs "type" = some (.jstr "pie") →
        ∀ items : List JVal,
        lookupField sfs "data" = some (.jarr items) →
        ∀ ifs : List (String × JVal), JVal.jobj ifs ∈ items →
        ∀ q : ℚ, lookupField ifs "value" = some (.jnum q) →
        q ∈ virtual_values →
        ∀ r : AuthReport,
        validate_data_authenticity origLen resLen (.parsed (.jobj dfs))
          = .ok r →
        AuthWarning.pieVirtual q ∈ r.warnings)
    ∧ (∀ (origLen resLen : ℕ)
        (dfs : List (String × JVal)) (vizs : List JVal),
        lookupField dfs "visualizations" = some (.jarr vizs) →
        ∀ vfs : List (String × JVal), JVal.jobj vfs ∈ vizs →
        lookupField vfs "type" = some (.jstr "echarts") →
        ∀ cfs : List (String × JVal),
        lookupField vfs "config" = some (.jobj cfs) →
        (lookupField cfs "radar").isSome = true →
        ∀ ss : List JVal,
        lookupField cfs "series" = some (.jarr ss) →
        ∀ sfs : List (String × JVal), JVal.jobj sfs ∈ ss →
        ∀ items : List JVal,
        lookupField sfs "data" = some (.jarr items) →
        ∀ ifs : List (String × JVal), JVal.jobj ifs ∈ items →
        ∀ vals : List JVal,
        lookupField ifs "value" = some (.jarr vals) →
        ∀ q : ℚ, JVal.jnum q ∈ vals → q ∈ virtual_values →
        ∀ r : AuthReport,
        validate_data_authenticity origLen resLen (.parsed (.jobj dfs))
          = .ok r →
        AuthWarning.radarVirtual (.jarr vals) ∈ r.warnings) := by
  refine ⟨auth_report_iff, ?_, ?_⟩
  · intro oL rL dfs vizs h1 vfs h2 h3 cfs h4 ss h5 sfs h6 h7 items h8 ifs h9
      q h10 h11 r h12
    exact auth_pie_detect oL rL dfs vizs h1 vfs h2 h3 cfs h4 ss h5 sfs h6 h7
      items h8 ifs h9 q h10 h11 r h12
  · intro oL rL dfs vizs h1 vfs h2 h3 cfs h4 hr ss h5 sfs h6 items h8 ifs h9
      vals h10 q h11 h12 r h13
    exact auth_radar_detect oL rL dfs vizs h1 vfs h2 h3 cfs h4 hr ss h5 sfs h6
      items h8 ifs h9 vals h10 q h11 h12 r h13

/-- The item fields of the C8 witness payload. -/
def c8Item : List (String × JVal) := [("value", .jnum 85)]

/-- The pie series fields of the C8 witness payload. -/
def c8SeriesFields : List (String × JVal) :=
  [("type", .jstr "pie"), ("data", .jarr [.jobj c8Item])]

/-- The chart config fields of the C8 witness payload. -/
def c8ConfigFields : List (String × JVal) :=
  [("series", .jarr [.jobj c8SeriesFields])]

/-- The visualization fields of the C8 witness payload. -/
def c8VizFields : List (String × JVal) :=
  [("type", .jstr "echarts"), ("config", .jobj c8ConfigFields)]

/-- The top-level fields of the C8 witness payload. -/
def c8DataFields : List (String × JVal) :=
  [("visualizations", .jarr [.jobj c8VizFields])]

/-- C8 witness: a concrete pie payload with the denylisted value 85
produces a returned report whose single warning is the pie warning, with
`has_virtual_data` true. -/
theorem C8_validator_amended_witness :
    validate_data_authenticity 0 1 (.parsed (.jobj c8DataFields))
      = .ok ⟨true, [.pieVirtual 85], 0, 1⟩
    ∧ AuthWarning.pieVirtual 85
        ∈ (AuthReport.mk true [.pieVirtual 85] 0 1).warnings
    ∧ ((AuthReport.mk true [.pieVirtual 85] 0 1).has_virtual_data = true
        ↔ (AuthReport.mk true [.pieVirtual 85] 0 1).warnings ≠ []) := by
  have hval : validate_data_authenticity 0 1 (.parsed (.jobj c8DataFields))
      = .ok ⟨true, [.pieVirtual 85], 0, 1⟩ := rfl
  refine ⟨hval, ?_, ?_⟩
  · exact C8_validator_amended.2.1 0 1 c8DataFields [.jobj c8VizFields] rfl
      c8VizFields (List.mem_singleton_self _) rfl c8ConfigFields rfl
      [.jobj c8SeriesFields] rfl c8SeriesFields (List.mem_singleton_self _)
      rfl [.jobj c8Item] rfl c8Item (List.mem_singleton_self _) 85 rfl
      (by decide) _ hval
  · exact C8_validator_amended.1 0 1 (.parsed (.jobj c8DataFields)) _ hval

end InfoViz
